import Mathlib

/-!
Shallow embedding of the StreamVibe notice-board backend
(src/controllers/noticeController.js and the Notice schema in
src/unnamed/part_000), together with theorems settling the frozen
claims about it.

Conventions of the embedding:
  - The document database is modelled as explicit state (`DB`) holding the
    notice, notification and user collections; database-generated ids and
    clock reads are passed in as arguments.
  - JavaScript truthiness of optional request fields is modelled with
    `Option` (`none` = absent/falsy).
  - A request-body field that may be present with a non-array value (the
    controller checks `Array.isArray`) is modelled with `JsArrVal`.
  - Unexpected persistence failures (a database call throwing) are modelled
    by Boolean fault-injection arguments; `true` means that call throws.
  - The Mongo `$regex`/`$options: i` search atom is modelled as
    case-insensitive substring containment, its semantics for
    metacharacter-free search strings.
-/

namespace StreamVibe

/-- A request-body value that is either a genuine array of strings or some
non-array value (the controller rejects the latter with
`Array.isArray`). -/
inductive JsArrVal where
  | arr (xs : List String)
  | notArr
deriving Repr, DecidableEq

/-- Structured target audience as stored on a notice document. -/
structure TargetAudience where
  branches : Option (List String)
  years : Option (List String)
deriving Repr, DecidableEq

/-- Target audience as it arrives in a request body: each selector may be
absent, an array, or a non-array value. -/
structure TargetAudiencePayload where
  branches : Option JsArrVal
  years : Option JsArrVal
deriving Repr, DecidableEq

/-- Convert a (controller-validated) payload target audience to the stored
form; a non-array selector never survives validation and is mapped to
`none`. -/
def TargetAudiencePayload.toStored (ta : TargetAudiencePayload) : TargetAudience :=
  { branches := ta.branches.bind fun v => match v with
      | JsArrVal.arr xs => some xs
      | JsArrVal.notArr => none
    years := ta.years.bind fun v => match v with
      | JsArrVal.arr xs => some xs
      | JsArrVal.notArr => none }

/-- A notice document. Carries both the rich-schema fields used by the
controller (targetAudience, author, isPublished, ...) and the flat-variant
fields (branch, year, teacher) that the list filters address; a document of
one variant has `none` in the other variant's fields. -/
structure Notice where
  idN : Nat
  title : String
  content : String
  category : String
  targetAudience : Option TargetAudience
  scheduledFor : Option Nat
  priority : Option String
  attachmentUrl : Option String
  author : Nat
  isPublished : Bool
  branch : Option String
  year : Option String
  teacher : Option Nat
  views : Nat
  createdAt : Nat
  updatedAt : Nat
deriving Repr, DecidableEq

/-- Payload carried on a notification record (`data` in the source). -/
structure NotificationData where
  noticeId : Nat
  category : String
  priority : Option String
deriving Repr, DecidableEq

/-- A notification document. -/
structure Notification where
  recipient : Nat
  type : String
  title : String
  message : String
  data : NotificationData
deriving Repr, DecidableEq

/-- A user document (external collaborator, referenced here only as a
recipient-filter target and as the acting user of a request). -/
structure User where
  idU : Nat
  role : String
  branch : String
  year : String
deriving Repr, DecidableEq

/-- The database state: the three collections the controller touches. -/
structure DB where
  notices : List Notice
  notifications : List Notification
  users : List User
deriving Repr, DecidableEq

/-- `Notice.findById`: the document with the given id, if any. -/
def DB.findNotice (db : DB) (id : Nat) : Option Notice :=
  db.notices.find? fun n => n.idN == id

/-- An HTTP response summary: status code and the `success` flag. -/
structure Resp where
  status : Nat
  success : Bool
deriving Repr, DecidableEq

/-- Result of a mutating controller call: the response, the new database
state, and a ghost counter of how many times `createNotifications` was
invoked during the call. -/
structure OpOut where
  resp : Resp
  db : DB
  fanouts : Nat
deriving Repr, DecidableEq

/-- The recipient query built by `createNotifications`: always
`role: student`; `branchIn`/`yearIn` are the optional `$in` restrictions. -/
structure UserQuery where
  role : String
  branchIn : Option (List String)
  yearIn : Option (List String)
deriving Repr, DecidableEq

/-- Build the recipient query for a notice, per the source: a branch (resp.
year) `$in` restriction is added exactly when the selector is present and
does not contain the wildcard "All". -/
def buildRecipientQuery (n : Notice) : UserQuery :=
  let q : UserQuery := { role := "student", branchIn := none, yearIn := none }
  match n.targetAudience with
  | none => q
  | some ta =>
    let q1 := match ta.branches with
      | some bs => if bs.contains "All" then q else { q with branchIn := some bs }
      | none => q
    match ta.years with
    | some ys => if ys.contains "All" then q1 else { q1 with yearIn := some ys }
    | none => q1

/-- Evaluate a recipient query against a user document (`User.find`). -/
def evalUserQuery (q : UserQuery) (u : User) : Bool :=
  u.role == q.role &&
  (match q.branchIn with
   | none => true
   | some bs => bs.contains u.branch) &&
  (match q.yearIn with
   | none => true
   | some ys => ys.contains u.year)

/-- The notification record constructed for one recipient. -/
def mkNotification (n : Notice) (u : User) : Notification :=
  { recipient := u.idU
    type := "notice_posted"
    title := "New Notice"
    message := n.title
    data := { noticeId := n.idN, category := n.category, priority := n.priority } }

/-- `createNotifications`: fetch the matching students and bulk-insert one
notification per student. The whole body runs in a try/catch that swallows
any error, so a failing `User.find` (`failFind`) or `insertMany`
(`failInsert`) leaves the database unchanged and nothing propagates. -/
def createNotifications (db : DB) (n : Notice) (failFind failInsert : Bool) : DB :=
  if failFind then db
  else
    let students := db.users.filter (evalUserQuery (buildRecipientQuery n))
    let notifs := students.map (mkNotification n)
    if failInsert then db
    else { db with notifications := db.notifications ++ notifs }

/-- The request body of `POST /api/notices` as destructured by the
controller; every field may be absent. -/
structure CreatePayload where
  title : Option String
  content : Option String
  category : Option String
  targetAudience : Option TargetAudiencePayload
  scheduledFor : Option Nat
  priority : Option String
  attachmentUrl : Option String
deriving Repr, DecidableEq

/-- The category enum of the Notice schema. -/
def categoryEnum : List String :=
  ["General", "Academic", "Event", "Important", "Other"]

/-- Modelled from the spec: the validation of the richer Notice schema
variant that `Notice.create` runs against (the variant with
targetAudience/author/isPublished is not under src/; src/unnamed/part_000
holds the flat variant, whose title/content/category constraints —
required presence, title at most 100 chars, content at most 1000 chars,
category in the enum — are the ones the spec states for both variants).
Returns the first validation failure message, or `none` if the document
validates. -/
def noticeValidationError (p : CreatePayload) : Option String :=
  match p.title with
  | none => some "Please add a title"
  | some t =>
    if t = "" then some "Please add a title"
    else if t.length > 100 then some "Title cannot be more than 100 characters"
    else match p.content with
      | none => some "Please add content"
      | some c =>
        if c = "" then some "Please add content"
        else if c.length > 1000 then some "Content cannot be more than 1000 characters"
        else match p.category with
          | none => some "Please add a category"
          | some k =>
            if categoryEnum.contains k then none
            else some "is not a valid enum value for path category"

/-- True when the given optional request field is present with a non-array
value (the case `Array.isArray` rejects). -/
def isNotArr : Option JsArrVal → Bool
  | some JsArrVal.notArr => true
  | _ => false

/-- The notice document `Notice.create` persists for a (validated) create
payload: the database generates `newId`, timestamps come from `now`, and
`isPublished` is the negation of the truthiness of `scheduledFor`. -/
def mkNotice (p : CreatePayload) (authorId newId now : Nat) : Notice :=
  { idN := newId
    title := p.title.getD ""
    content := p.content.getD ""
    category := p.category.getD ""
    targetAudience := p.targetAudience.map TargetAudiencePayload.toStored
    scheduledFor := p.scheduledFor
    priority := p.priority
    attachmentUrl := p.attachmentUrl
    author := authorId
    isPublished := p.scheduledFor.isNone
    branch := none
    year := none
    teacher := none
    views := 0
    createdAt := now
    updatedAt := now }

/-- `createNotice` (POST /api/notices). Controller-level `Array.isArray`
checks on the target audience come first (400); then `Notice.create`
validates against the schema (a ValidationError is caught and answered
with 400) or may itself fail unexpectedly (`failCreate`; that error is
caught by the same catch-all and also answered with 400). On success the
notice is persisted and, exactly when `scheduledFor` is absent,
`createNotifications` runs. -/
def createNotice (db : DB) (p : CreatePayload) (authorId newId now : Nat)
    (failCreate failFind failInsert : Bool) : OpOut :=
  if p.targetAudience.elim false (fun ta => isNotArr ta.branches) then
    { resp := { status := 400, success := false }, db := db, fanouts := 0 }
  else if p.targetAudience.elim false (fun ta => isNotArr ta.years) then
    { resp := { status := 400, success := false }, db := db, fanouts := 0 }
  else match noticeValidationError p with
    | some _ => { resp := { status := 400, success := false }, db := db, fanouts := 0 }
    | none =>
      if failCreate then
        { resp := { status := 400, success := false }, db := db, fanouts := 0 }
      else
        let n := mkNotice p authorId newId now
        let db1 : DB := { db with notices := db.notices ++ [n] }
        if p.scheduledFor.isNone then
          { resp := { status := 201, success := true }
            db := createNotifications db1 n failFind failInsert
            fanouts := 1 }
        else
          { resp := { status := 201, success := true }, db := db1, fanouts := 0 }

/-- The request body of `PUT /api/notices/:id`; every field may be absent,
and `isPublished` is additionally destructured. -/
structure UpdatePayload where
  title : Option String
  content : Option String
  category : Option String
  targetAudience : Option TargetAudiencePayload
  scheduledFor : Option Nat
  priority : Option String
  attachmentUrl : Option String
  isPublished : Option Bool
deriving Repr, DecidableEq

/-- Validation run by `findByIdAndUpdate` with `runValidators: true`:
only the paths supplied in the update are validated (Mongoose strips the
absent ones), against the same constraints as creation; a non-array
target-audience selector fails the cast. -/
def updateValidationError (p : UpdatePayload) : Option String :=
  match p.title with
  | some t =>
    if t = "" then some "Please add a title"
    else if t.length > 100 then some "Title cannot be more than 100 characters"
    else updateValidationErrorRest p
  | none => updateValidationErrorRest p
where
  updateValidationErrorRest (p : UpdatePayload) : Option String :=
    match p.content with
    | some c =>
      if c = "" then some "Please add content"
      else if c.length > 1000 then some "Content cannot be more than 1000 characters"
      else updateValidationErrorCat p
    | none => updateValidationErrorCat p
  updateValidationErrorCat (p : UpdatePayload) : Option String :=
    match p.category with
    | some k =>
      if categoryEnum.contains k then updateValidationErrorTa p
      else some "is not a valid enum value for path category"
    | none => updateValidationErrorTa p
  updateValidationErrorTa (p : UpdatePayload) : Option String :=
    match p.targetAudience with
    | some ta =>
      if isNotArr ta.branches || isNotArr ta.years then some "Cast to Array failed"
      else none
    | none => none

/-- The document produced by `findByIdAndUpdate`: supplied fields replace
the stored ones, absent fields are left unchanged, `updatedAt` is set to
`Date.now()`. -/
def applyUpdate (n : Notice) (p : UpdatePayload) (now : Nat) : Notice :=
  { n with
    title := p.title.getD n.title
    content := p.content.getD n.content
    category := p.category.getD n.category
    targetAudience := match p.targetAudience with
      | some ta => some ta.toStored
      | none => n.targetAudience
    scheduledFor := match p.scheduledFor with
      | some t => some t
      | none => n.scheduledFor
    priority := match p.priority with
      | some x => some x
      | none => n.priority
    attachmentUrl := match p.attachmentUrl with
      | some x => some x
      | none => n.attachmentUrl
    isPublished := p.isPublished.getD n.isPublished
    updatedAt := now }

/-- `updateNotice` (PUT /api/notices/:id). Looks the notice up (404 when
absent), checks ownership (403 when the acting user is neither the author
nor an admin), then updates via `findByIdAndUpdate` with validators (a
validation failure, or an unexpected failure of the update call
(`failUpdate`), is caught by the catch-all and answered with 400).
`createNotifications` runs exactly when the body's `isPublished` is truthy
and the stored notice was unpublished. -/
def updateNotice (db : DB) (id : Nat) (p : UpdatePayload) (u : User) (now : Nat)
    (failUpdate failFind failInsert : Bool) : OpOut :=
  match db.findNotice id with
  | none => { resp := { status := 404, success := false }, db := db, fanouts := 0 }
  | some n =>
    if n.author != u.idU && u.role != "admin" then
      { resp := { status := 403, success := false }, db := db, fanouts := 0 }
    else match updateValidationError p with
      | some _ => { resp := { status := 400, success := false }, db := db, fanouts := 0 }
      | none =>
        if failUpdate then
          { resp := { status := 400, success := false }, db := db, fanouts := 0 }
        else
          let updated := applyUpdate n p now
          let db1 : DB :=
            { db with notices := db.notices.map fun m => if m.idN == id then updated else m }
          if p.isPublished.getD false && !n.isPublished then
            { resp := { status := 200, success := true }
              db := createNotifications db1 updated failFind failInsert
              fanouts := 1 }
          else
            { resp := { status := 200, success := true }, db := db1, fanouts := 0 }

/-- `deleteNotice` (DELETE /api/notices/:id). Same lookup and ownership
checks as update; an unexpected failure of `notice.remove()` is answered
with 500 by this handler's catch-all. Emitted notifications are not
touched. -/
def deleteNotice (db : DB) (id : Nat) (u : User) (failRemove : Bool) : OpOut :=
  match db.findNotice id with
  | none => { resp := { status := 404, success := false }, db := db, fanouts := 0 }
  | some n =>
    if n.author != u.idU && u.role != "admin" then
      { resp := { status := 403, success := false }, db := db, fanouts := 0 }
    else if failRemove then
      { resp := { status := 500, success := false }, db := db, fanouts := 0 }
    else
      { resp := { status := 200, success := true }
        db := { db with notices := db.notices.filter fun m => m.idN != id }
        fanouts := 0 }

/-- `getNotice` (GET /api/notices/:id): 404 when no document matches, 500
when the lookup itself fails unexpectedly. -/
def getNotice (db : DB) (id : Nat) (failFind : Bool) : Resp :=
  if failFind then { status := 500, success := false }
  else match db.findNotice id with
    | none => { status := 404, success := false }
    | some _ => { status := 200, success := true }

/-- Does `pat` occur at the start of `s`? -/
def charsHasPre : List Char → List Char → Bool
  | [], _ => true
  | _ :: _, [] => false
  | p :: ps, c :: cs => p == c && charsHasPre ps cs

/-- Does `pat` occur contiguously anywhere in `s`? -/
def charsHasSub (pat : List Char) : List Char → Bool
  | [] => charsHasPre pat []
  | c :: cs => charsHasPre pat (c :: cs) || charsHasSub pat cs

/-- Lower-case a character sequence (`toLowerCase` of the regex engine's
case folding, character by character). -/
def lowerChars (s : List Char) : List Char := s.map Char.toLower

/-- Case-insensitive substring containment: the model of the Mongo
`$regex: search, $options: i` atom for metacharacter-free search
strings. -/
def containsCI (hay pat : String) : Bool :=
  charsHasSub (lowerChars pat.data) (lowerChars hay.data)

/-- The query parameters of `GET /api/notices`; `none` models an absent (or
falsy) parameter, and page/limit default to 1 and 10. -/
structure ListParams where
  category : Option String := none
  branch : Option String := none
  year : Option String := none
  teacher : Option Nat := none
  search : Option String := none
  page : Nat := 1
  limit : Nat := 10
deriving Repr, DecidableEq

/-- The Mongo query object `getNotices` builds: one optional equality
condition per filter, plus the optional `$or` pair of case-insensitive
regexes over title and content, represented by the search string. -/
structure NoticeQuery where
  category : Option String
  branch : Option String
  year : Option String
  teacher : Option Nat
  orSearch : Option String
deriving Repr, DecidableEq

/-- Build the list query exactly as the source does, one conditional field
at a time. -/
def buildNoticeQuery (ps : ListParams) : NoticeQuery :=
  { category := ps.category
    branch := ps.branch
    year := ps.year
    teacher := ps.teacher
    orSearch := ps.search }

/-- Evaluate the list query against a notice document (`Notice.find` /
`countDocuments`): top-level fields are conjoined, the `$or` clause
requires a title or content match. -/
def evalNoticeQuery (q : NoticeQuery) (n : Notice) : Bool :=
  (match q.category with
   | none => true
   | some c => n.category == c) &&
  (match q.branch with
   | none => true
   | some b => n.branch == some b) &&
  (match q.year with
   | none => true
   | some y => n.year == some y) &&
  (match q.teacher with
   | none => true
   | some t => n.teacher == some t) &&
  (match q.orSearch with
   | none => true
   | some s => containsCI n.title s || containsCI n.content s)

/-- The order `sort(\x7b createdAt: -1 \x7d)` sorts by: newest first. -/
def newestFirst (a b : Notice) : Prop := b.createdAt ≤ a.createdAt

instance : DecidableRel newestFirst := fun a b => Nat.decLe b.createdAt a.createdAt

/-- The response of `GET /api/notices`. -/
structure ListResp where
  status : Nat
  success : Bool
  count : Nat
  total : Nat
  totalPages : Nat
  page : Nat
  data : List Notice
deriving Repr, DecidableEq

/-- `Math.ceil(total / limit)` on naturals (for a positive limit). -/
def jsCeil (total limit : Nat) : Nat := (total + limit - 1) / limit

/-- `getNotices` (GET /api/notices): filter, sort newest first, then apply
`skip((page-1)*limit).limit(limit)`; `total` counts every match and
`totalPages` is the ceiling of total/limit. An unexpected failure of the
find is answered with 500. -/
def getNotices (db : DB) (ps : ListParams) (failFind : Bool) : ListResp :=
  if failFind then
    { status := 500, success := false, count := 0, total := 0, totalPages := 0
      page := 0, data := [] }
  else
    let q := buildNoticeQuery ps
    let matching := db.notices.filter (evalNoticeQuery q)
    let sorted := List.insertionSort newestFirst matching
    let skip := (ps.page - 1) * ps.limit
    let pageData := (sorted.drop skip).take ps.limit
    let total := matching.length
    { status := 200, success := true, count := pageData.length, total := total
      totalPages := jsCeil total ps.limit, page := ps.page, data := pageData }

/-- One `$group` bucket of the category aggregation: count and summed
views. -/
structure CatStat where
  key : String
  count : Nat
  totalViews : Nat
deriving Repr, DecidableEq

/-- One bucket of the priority aggregation. -/
structure PriStat where
  key : Option String
  count : Nat
deriving Repr, DecidableEq

/-- One bucket of the monthly aggregation, keyed by (year, month) of the
creation timestamp. -/
structure MonStat where
  year : Nat
  month : Nat
  count : Nat
deriving Repr, DecidableEq

/-- The distinct elements of a list in first-occurrence order (the grouping
keys of a `$group` stage). -/
def distinctKeys [BEq α] (l : List α) : List α :=
  l.foldl (fun acc k => if acc.contains k then acc else acc ++ [k]) []

/-- Civil (year, month) from a count of days since 1970-01-01, the
Gregorian-calendar computation behind the `$year`/`$month` aggregation
operators. -/
def civilYearMonth (days : Nat) : Nat × Nat :=
  let z := days + 719468
  let era := z / 146097
  let doe := z % 146097
  let yoe := (doe - doe / 1460 + doe / 36524 - doe / 146096) / 365
  let y := yoe + era * 400
  let doy := doe - (365 * yoe + yoe / 4 - yoe / 100)
  let mp := (5 * doy + 2) / 153
  let m := if mp < 10 then mp + 3 else mp - 9
  (if m ≤ 2 then y + 1 else y, m)

/-- (year, month) of a millisecond timestamp. -/
def tsYearMonth (t : Nat) : Nat × Nat := civilYearMonth (t / 86400000)

/-- The response of `GET /api/notices/stats`. -/
structure StatsResp where
  status : Nat
  success : Bool
  categoryStats : List CatStat
  priorityStats : List PriStat
  monthlyStats : List MonStat
deriving Repr, DecidableEq

/-- Sort order of the category aggregation: count descending. -/
def countDesc (a b : CatStat) : Prop := b.count ≤ a.count

instance : DecidableRel countDesc := fun a b => Nat.decLe b.count a.count

/-- Sort order of the monthly aggregation: (year, month) ascending. -/
def yearMonthAsc (a b : MonStat) : Prop :=
  a.year < b.year ∨ (a.year = b.year ∧ a.month ≤ b.month)

instance : DecidableRel yearMonthAsc := fun a b => by
  unfold yearMonthAsc; infer_instance

/-- `getNoticeStats` (GET /api/notices/stats): three independent
aggregations over the acting user's notices; an unexpected aggregation
failure is answered with 500. -/
def getNoticeStats (db : DB) (userId : Nat) (failAgg : Bool) : StatsResp :=
  if failAgg then
    { status := 500, success := false, categoryStats := [], priorityStats := []
      monthlyStats := [] }
  else
    let mine := db.notices.filter fun n => n.author == userId
    let catStats :=
      List.insertionSort countDesc <|
        (distinctKeys (mine.map Notice.category)).map fun c =>
          let grp := mine.filter fun n => n.category == c
          { key := c, count := grp.length
            totalViews := (grp.map Notice.views).sum : CatStat }
    let priStats :=
      (distinctKeys (mine.map Notice.priority)).map fun pr =>
        { key := pr, count := (mine.filter fun n => n.priority == pr).length : PriStat }
    let monStats :=
      List.insertionSort yearMonthAsc <|
        (distinctKeys (mine.map fun n => tsYearMonth n.createdAt)).map fun ym =>
          { year := ym.1, month := ym.2
            count := (mine.filter fun n => tsYearMonth n.createdAt == ym).length : MonStat }
    { status := 200, success := true, categoryStats := catStats
      priorityStats := priStats, monthlyStats := monStats }

/-- Combined success of every validation step of `createNotice`: the two
`Array.isArray` checks and the schema validation. -/
def createPayloadOk (p : CreatePayload) : Bool :=
  !(p.targetAudience.elim false fun ta => isNotArr ta.branches) &&
  !(p.targetAudience.elim false fun ta => isNotArr ta.years) &&
  (noticeValidationError p).isNone

/-- A student used by concrete witnesses. -/
def aStudent : User := { idU := 1, role := "student", branch := "CSE", year := "3" }

/-- The teacher who authors the witness notice. -/
def aTeacher : User := { idU := 7, role := "teacher", branch := "CSE", year := "1" }

/-- A different, non-admin teacher. -/
def bTeacher : User := { idU := 8, role := "teacher", branch := "ECE", year := "1" }

/-- An unpublished notice authored by `aTeacher`, used by concrete
witnesses. -/
def aNotice : Notice :=
  { idN := 1, title := "Exam schedule", content := "Midterm exams start Friday"
    category := "Academic", targetAudience := none, scheduledFor := some 500
    priority := some "high", attachmentUrl := none, author := 7
    isPublished := false, branch := none, year := none, teacher := none
    views := 0, createdAt := 100, updatedAt := 100 }

/-- A small database holding `aNotice` and `aStudent`. -/
def aDb : DB := { notices := [aNotice], notifications := [], users := [aStudent] }

/-- A valid creation payload with no schedule. -/
def aPayload : CreatePayload :=
  { title := some "Exam schedule", content := some "Midterm exams start Friday"
    category := some "Academic", targetAudience := none, scheduledFor := none
    priority := some "high", attachmentUrl := none }

/-- An update payload that only sets `isPublished` to true. -/
def publishPayload : UpdatePayload :=
  { title := none, content := none, category := none, targetAudience := none
    scheduledFor := none, priority := none, attachmentUrl := none
    isPublished := some true }

theorem createNotifications_notices (db : DB) (n : Notice) (ff fi : Bool) :
    (createNotifications db n ff fi).notices = db.notices := by
  unfold createNotifications
  cases ff <;> cases fi <;> simp

/-- C3: for a published notice, fan-out appends exactly one notification
per stored user matching the recipient query; a user matches the built
query exactly when their role is student and they pass the branch and year
restrictions, each of which applies only when the selector is present and
does not contain the wildcard "All"; and each constructed record carries
type "notice_posted", title "New Notice", message equal to the notice's
title, and the notice's id, category and priority in its payload. -/
theorem createNotifications_one_per_matching_student (db : DB) (n : Notice) :
    (createNotifications db n false false).notifications
      = db.notifications
        ++ (db.users.filter (evalUserQuery (buildRecipientQuery n))).map (mkNotification n)
    ∧ (∀ u : User,
        evalUserQuery (buildRecipientQuery n) u = true
          ↔ u.role = "student"
            ∧ (∀ ta, n.targetAudience = some ta →
                (∀ bs, ta.branches = some bs → "All" ∉ bs → u.branch ∈ bs)
                ∧ (∀ ys, ta.years = some ys → "All" ∉ ys → u.year ∈ ys)))
    ∧ (∀ u : User, mkNotification n u
        = { recipient := u.idU, type := "notice_posted", title := "New Notice"
            message := n.title
            data := { noticeId := n.idN, category := n.category
                      priority := n.priority } }) := by
  refine ⟨rfl, ?_, fun u => rfl⟩
  intro u
  unfold evalUserQuery buildRecipientQuery
  cases hta : n.targetAudience with
  | none => simp [beq_iff_eq]
  | some ta =>
    cases hbs : ta.branches with
    | none =>
      cases hys : ta.years with
      | none => simp [hbs, hys, beq_iff_eq]
      | some ys =>
        by_cases hAll : "All" ∈ ys <;>
          simp [hbs, hys, hAll, beq_iff_eq, decide_eq_true_iff, and_assoc]
    | some bs =>
      cases hys : ta.years with
      | none =>
        by_cases hAll : "All" ∈ bs <;>
          simp [hbs, hys, hAll, beq_iff_eq, decide_eq_true_iff, and_assoc]
      | some ys =>
        by_cases hAllb : "All" ∈ bs <;> by_cases hAlly : "All" ∈ ys <;>
          simp [hbs, hys, hAllb, hAlly, beq_iff_eq, decide_eq_true_iff, and_assoc]

/-- C1: for an update of an existing notice by an authorized user (with a
payload passing the update validators and no persistence fault), fan-out
runs exactly once when the payload's `isPublished` is true and the stored
notice's `isPublished` was false, and zero times otherwise; in particular
an update of an already-published notice never re-notifies. -/
theorem updateNotice_fanout_on_publish_edge
    (db : DB) (id : Nat) (p : UpdatePayload) (u : User) (now : Nat)
    (failFind failInsert : Bool) (n : Notice)
    (hfind : db.findNotice id = some n)
    (hauth : n.author = u.idU ∨ u.role = "admin")
    (hval : updateValidationError p = none) :
    (updateNotice db id p u now false failFind failInsert).fanouts
      = (if p.isPublished = some true ∧ n.isPublished = false then 1 else 0)
    ∧ (n.isPublished = true →
        (updateNotice db id p u now false failFind failInsert).fanouts = 0) := by
  have hguard : (n.author != u.idU && u.role != "admin") = false := by
    rcases hauth with h | h <;> simp [h]
  constructor
  · cases hp : p.isPublished with
    | none =>
      cases hpub : n.isPublished <;>
        simp [updateNotice, hfind, hguard, hval, hp, hpub]
    | some b =>
      cases b <;> cases hpub : n.isPublished <;>
        simp [updateNotice, hfind, hguard, hval, hp, hpub]
  · intro hpub
    cases hp : p.isPublished with
    | none => simp [updateNotice, hfind, hguard, hval, hp, hpub]
    | some b => cases b <;> simp [updateNotice, hfind, hguard, hval, hp, hpub]

theorem updateNotice_fanout_on_publish_edge_witness :
    aDb.findNotice 1 = some aNotice
    ∧ (aNotice.author = aTeacher.idU ∨ aTeacher.role = "admin")
    ∧ updateValidationError publishPayload = none
    ∧ ((updateNotice aDb 1 publishPayload aTeacher 200 false false false).fanouts
        = (if publishPayload.isPublished = some true ∧ aNotice.isPublished = false
           then 1 else 0)
      ∧ (aNotice.isPublished = true →
          (updateNotice aDb 1 publishPayload aTeacher 200 false false false).fanouts
            = 0)) :=
  ⟨by decide, Or.inl (by decide), by decide,
    updateNotice_fanout_on_publish_edge aDb 1 publishPayload aTeacher 200 false false
      aNotice (by decide) (Or.inl (by decide)) (by decide)⟩

/-- C2: creating with a valid payload persists a notice whose
`isPublished` is the negation of the presence of `scheduledFor`, and runs
fan-out exactly when `scheduledFor` is absent; with a (future)
`scheduledFor` the notification collection is untouched at creation
time. -/
theorem createNotice_isPublished_and_fanout
    (db : DB) (p : CreatePayload) (authorId newId now : Nat) (ff fi : Bool)
    (hok : createPayloadOk p = true) :
    (createNotice db p authorId newId now false ff fi).resp
      = { status := 201, success := true }
    ∧ (createNotice db p authorId newId now false ff fi).db.notices
      = db.notices ++ [mkNotice p authorId newId now]
    ∧ (mkNotice p authorId newId now).isPublished = p.scheduledFor.isNone
    ∧ (createNotice db p authorId newId now false ff fi).fanouts
      = (if p.scheduledFor.isNone then 1 else 0)
    ∧ (∀ t, p.scheduledFor = some t →
        (createNotice db p authorId newId now false ff fi).db.notifications
          = db.notifications) := by
  have h1 : p.targetAudience.elim false (fun ta => isNotArr ta.branches) = false := by
    simp only [createPayloadOk, Bool.and_eq_true, Bool.not_eq_true'] at hok
    exact hok.1.1
  have h2 : p.targetAudience.elim false (fun ta => isNotArr ta.years) = false := by
    simp only [createPayloadOk, Bool.and_eq_true, Bool.not_eq_true'] at hok
    exact hok.1.2
  have hv : noticeValidationError p = none := by
    simp only [createPayloadOk, Bool.and_eq_true, Option.isNone_iff_eq_none] at hok
    exact hok.2
  cases hs : p.scheduledFor with
  | none =>
    simp [createNotice, h1, h2, hv, hs, createNotifications_notices, mkNotice]
  | some t =>
    simp [createNotice, h1, h2, hv, hs, mkNotice]

theorem createNotice_isPublished_and_fanout_witness :
    createPayloadOk aPayload = true
    ∧ ((createNotice aDb aPayload 7 2 300 false false false).resp
        = { status := 201, success := true }
      ∧ (createNotice aDb aPayload 7 2 300 false false false).db.notices
        = aDb.notices ++ [mkNotice aPayload 7 2 300]
      ∧ (mkNotice aPayload 7 2 300).isPublished = aPayload.scheduledFor.isNone
      ∧ (createNotice aDb aPayload 7 2 300 false false false).fanouts
        = (if aPayload.scheduledFor.isNone then 1 else 0)
      ∧ (∀ t, aPayload.scheduledFor = some t →
          (createNotice aDb aPayload 7 2 300 false false false).db.notifications
            = aDb.notifications)) :=
  ⟨by decide, createNotice_isPublished_and_fanout aDb aPayload 7 2 300 false false
    (by decide)⟩

/-- C4: faults in the fan-out step (recipient lookup or bulk insert
throwing) are swallowed inside `createNotifications`: a valid create still
answers 201 and an authorized, valid update of an existing notice still
answers 200, and in both cases the notice collection is exactly what it
would have been with no fan-out fault. -/
theorem fanout_failure_contained
    (db : DB) (p : CreatePayload) (authorId newId now : Nat)
    (id : Nat) (q : UpdatePayload) (u : User) (n : Notice) (ff fi : Bool)
    (hok : createPayloadOk p = true)
    (hfind : db.findNotice id = some n)
    (hauth : n.author = u.idU ∨ u.role = "admin")
    (hval : updateValidationError q = none) :
    ((createNotice db p authorId newId now false ff fi).resp
        = { status := 201, success := true }
      ∧ (createNotice db p authorId newId now false ff fi).db.notices
        = (createNotice db p authorId newId now false false false).db.notices)
    ∧ ((updateNotice db id q u now false ff fi).resp
        = { status := 200, success := true }
      ∧ (updateNotice db id q u now false ff fi).db.notices
        = (updateNotice db id q u now false false false).db.notices) := by
  have h1 : p.targetAudience.elim false (fun ta => isNotArr ta.branches) = false := by
    simp only [createPayloadOk, Bool.and_eq_true, Bool.not_eq_true'] at hok
    exact hok.1.1
  have h2 : p.targetAudience.elim false (fun ta => isNotArr ta.years) = false := by
    simp only [createPayloadOk, Bool.and_eq_true, Bool.not_eq_true'] at hok
    exact hok.1.2
  have hv : noticeValidationError p = none := by
    simp only [createPayloadOk, Bool.and_eq_true, Option.isNone_iff_eq_none] at hok
    exact hok.2
  have hguard : (n.author != u.idU && u.role != "admin") = false := by
    rcases hauth with h | h <;> simp [h]
  constructor
  · cases hs : p.scheduledFor with
    | none => simp [createNotice, h1, h2, hv, hs, createNotifications_notices]
    | some t => simp [createNotice, h1, h2, hv, hs]
  · cases hp : q.isPublished.getD false && !n.isPublished <;>
      simp [updateNotice, hfind, hguard, hval, hp, createNotifications_notices]

theorem fanout_failure_contained_witness :
    createPayloadOk aPayload = true
    ∧ aDb.findNotice 1 = some aNotice
    ∧ (aNotice.author = aTeacher.idU ∨ aTeacher.role = "admin")
    ∧ updateValidationError publishPayload = none
    ∧ (((createNotice aDb aPayload 7 2 300 false true true).resp
          = { status := 201, success := true }
        ∧ (createNotice aDb aPayload 7 2 300 false true true).db.notices
          = (createNotice aDb aPayload 7 2 300 false false false).db.notices)
      ∧ ((updateNotice aDb 1 publishPayload aTeacher 300 false true true).resp
          = { status := 200, success := true }
        ∧ (updateNotice aDb 1 publishPayload aTeacher 300 false true true).db.notices
          = (updateNotice aDb 1 publishPayload aTeacher 300 false false false).db.notices)) :=
  ⟨by decide, by decide, Or.inl (by decide), by decide,
    fanout_failure_contained aDb aPayload 7 2 300 1 publishPayload aTeacher aNotice
      true true (by decide) (by decide) (Or.inl (by decide)) (by decide)⟩

/-- C5: update and delete answer 404 when no notice matches the id and 403
when the notice exists but the acting user is neither its author nor an
admin; in both cases the returned database state is exactly the input
state and no fan-out runs. -/
theorem update_delete_notfound_forbidden
    (db : DB) (id : Nat) (p : UpdatePayload) (u : User) (now : Nat)
    (f1 f2 f3 f4 : Bool) :
    (db.findNotice id = none →
      updateNotice db id p u now f1 f2 f3
        = { resp := { status := 404, success := false }, db := db, fanouts := 0 }
      ∧ deleteNotice db id u f4
        = { resp := { status := 404, success := false }, db := db, fanouts := 0 })
    ∧ (∀ n, db.findNotice id = some n → n.author ≠ u.idU → u.role ≠ "admin" →
      updateNotice db id p u now f1 f2 f3
        = { resp := { status := 403, success := false }, db := db, fanouts := 0 }
      ∧ deleteNotice db id u f4
        = { resp := { status := 403, success := false }, db := db, fanouts := 0 }) := by
  constructor
  · intro h
    exact ⟨by simp [updateNotice, h], by simp [deleteNotice, h]⟩
  · intro n hfind hna hnr
    have hguard : (n.author != u.idU && u.role != "admin") = true := by
      simp [bne_iff_ne, hna, hnr]
    exact ⟨by simp [updateNotice, hfind, hguard], by simp [deleteNotice, hfind, hguard]⟩

theorem update_delete_notfound_forbidden_witness :
    (aDb.findNotice 99 = none →
      updateNotice aDb 99 publishPayload bTeacher 200 false false false
        = { resp := { status := 404, success := false }, db := aDb, fanouts := 0 }
      ∧ deleteNotice aDb 99 bTeacher false
        = { resp := { status := 404, success := false }, db := aDb, fanouts := 0 })
    ∧ (∀ n, aDb.findNotice 99 = some n → n.author ≠ bTeacher.idU →
        bTeacher.role ≠ "admin" →
      updateNotice aDb 99 publishPayload bTeacher 200 false false false
        = { resp := { status := 403, success := false }, db := aDb, fanouts := 0 }
      ∧ deleteNotice aDb 99 bTeacher false
        = { resp := { status := 403, success := false }, db := aDb, fanouts := 0 }) :=
  update_delete_notfound_forbidden aDb 99 publishPayload bTeacher 200
    false false false false

/-- C6: a creation payload that fails any validation step — a non-array
branches or years selector, a missing or over-long required field, or a
category outside the enum — is answered with 400 and the database is
returned unchanged: no notice and no notifications are persisted,
whatever the fault-injection flags. -/
theorem createNotice_invalid_rejected
    (db : DB) (p : CreatePayload) (authorId newId now : Nat) (fc ff fi : Bool)
    (hbad : createPayloadOk p = false) :
    (createNotice db p authorId newId now fc ff fi).resp
      = { status := 400, success := false }
    ∧ (createNotice db p authorId newId now fc ff fi).db = db := by
  cases h1 : p.targetAudience.elim false (fun ta => isNotArr ta.branches) with
  | true => constructor <;> simp [createNotice, h1]
  | false =>
    cases h2 : p.targetAudience.elim false (fun ta => isNotArr ta.years) with
    | true => constructor <;> simp [createNotice, h1, h2]
    | false =>
      cases hv : noticeValidationError p with
      | some msg => constructor <;> simp [createNotice, h1, h2, hv]
      | none =>
        exfalso
        simp [createPayloadOk, h1, h2, hv] at hbad

/-- A creation payload whose title has 101 characters. -/
def longTitlePayload : CreatePayload :=
  { aPayload with title := some (String.mk (List.replicate 101 'a')) }

theorem createNotice_invalid_rejected_witness :
    createPayloadOk longTitlePayload = false
    ∧ ((createNotice aDb longTitlePayload 7 2 300 false false false).resp
        = { status := 400, success := false }
      ∧ (createNotice aDb longTitlePayload 7 2 300 false false false).db = aDb) :=
  ⟨by decide,
    createNotice_invalid_rejected aDb longTitlePayload 7 2 300 false false false
      (by decide)⟩

/-- C10: when no notice matches the id, both update and delete answer 404
for every acting user — the existence check runs before the ownership
check, so probing a nonexistent id never yields 403. -/
theorem notfound_checked_before_ownership
    (db : DB) (id : Nat) (p : UpdatePayload) (u : User) (now : Nat)
    (f1 f2 f3 f4 : Bool) (h : db.findNotice id = none) :
    (updateNotice db id p u now f1 f2 f3).resp = { status := 404, success := false }
    ∧ (deleteNotice db id u f4).resp = { status := 404, success := false } := by
  exact ⟨by simp [updateNotice, h], by simp [deleteNotice, h]⟩

theorem notfound_checked_before_ownership_witness :
    aDb.findNotice 99 = none
    ∧ ((updateNotice aDb 99 publishPayload bTeacher 200 false false false).resp
        = { status := 404, success := false }
      ∧ (deleteNotice aDb 99 bTeacher false).resp
        = { status := 404, success := false }) :=
  ⟨by decide,
    notfound_checked_before_ownership aDb 99 publishPayload bTeacher 200
      false false false false (by decide)⟩

/-- C9 counterexample: an unexpected persistence failure (neither a
validation, not-found nor authorization error) during `Notice.create` on a
fully valid payload, or during `findByIdAndUpdate` on an authorized valid
update, is answered with status 400 by those handlers' catch-alls — not
with the 500 the claim requires. -/
theorem server_failure_status_counterexample :
    (createNotice aDb aPayload 7 2 300 true false false).resp.status = 400
    ∧ ¬ (createNotice aDb aPayload 7 2 300 true false false).resp.status = 500
    ∧ (updateNotice aDb 1 publishPayload aTeacher 200 true false false).resp.status = 400
    ∧ ¬ (updateNotice aDb 1 publishPayload aTeacher 200 true false false).resp.status
        = 500 := by
  decide

/-- C9 amended: an unexpected persistence failure is reported with status
500 by List, Get and Stats, and by Delete when its removal step fails
after the checks pass; but Create and Update report any caught error —
unexpected persistence failures included — with status 400. -/
theorem unexpected_failure_status_by_operation
    (db : DB) (ps : ListParams) (id uid authorId newId now : Nat)
    (p : CreatePayload) (q : UpdatePayload) (u : User) (n : Notice) (ff fi : Bool)
    (hok : createPayloadOk p = true)
    (hfind : db.findNotice id = some n)
    (hauth : n.author = u.idU ∨ u.role = "admin")
    (hval : updateValidationError q = none) :
    (getNotices db ps true).status = 500
    ∧ (getNotice db id true).status = 500
    ∧ (getNoticeStats db uid true).status = 500
    ∧ (deleteNotice db id u true).resp.status = 500
    ∧ (createNotice db p authorId newId now true ff fi).resp.status = 400
    ∧ (updateNotice db id q u now true ff fi).resp.status = 400 := by
  have h1 : p.targetAudience.elim false (fun ta => isNotArr ta.branches) = false := by
    simp only [createPayloadOk, Bool.and_eq_true, Bool.not_eq_true'] at hok
    exact hok.1.1
  have h2 : p.targetAudience.elim false (fun ta => isNotArr ta.years) = false := by
    simp only [createPayloadOk, Bool.and_eq_true, Bool.not_eq_true'] at hok
    exact hok.1.2
  have hv : noticeValidationError p = none := by
    simp only [createPayloadOk, Bool.and_eq_true, Option.isNone_iff_eq_none] at hok
    exact hok.2
  have hguard : (n.author != u.idU && u.role != "admin") = false := by
    rcases hauth with h | h <;> simp [h]
  refine ⟨by simp [getNotices], by simp [getNotice], by simp [getNoticeStats],
    by simp [deleteNotice, hfind, hguard], ?_, ?_⟩
  · simp [createNotice, h1, h2, hv]
  · simp [updateNotice, hfind, hguard, hval]

theorem unexpected_failure_status_by_operation_witness :
    createPayloadOk aPayload = true
    ∧ aDb.findNotice 1 = some aNotice
    ∧ (aNotice.author = aTeacher.idU ∨ aTeacher.role = "admin")
    ∧ updateValidationError publishPayload = none
    ∧ ((getNotices aDb {} true).status = 500
      ∧ (getNotice aDb 1 true).status = 500
      ∧ (getNoticeStats aDb 7 true).status = 500
      ∧ (deleteNotice aDb 1 aTeacher true).resp.status = 500
      ∧ (createNotice aDb aPayload 7 2 300 true false false).resp.status = 400
      ∧ (updateNotice aDb 1 publishPayload aTeacher 300 true false false).resp.status
          = 400) :=
  ⟨by decide, by decide, Or.inl (by decide), by decide,
    unexpected_failure_status_by_operation aDb {} 1 7 7 2 300 aPayload publishPayload
      aTeacher aNotice false false (by decide) (by decide) (Or.inl (by decide))
      (by decide)⟩

theorem charsHasPre_iff (pat s : List Char) :
    charsHasPre pat s = true ↔ ∃ r, s = pat ++ r := by
  induction pat generalizing s with
  | nil => simp [charsHasPre]
  | cons p ps ih =>
    cases s with
    | nil => simp [charsHasPre]
    | cons c cs =>
      simp only [charsHasPre, Bool.and_eq_true, beq_iff_eq, ih, List.cons_append,
        List.cons.injEq]
      constructor
      · rintro ⟨hpc, r, hr⟩
        exact ⟨r, hpc.symm, hr⟩
      · rintro ⟨r, hcp, hr⟩
        exact ⟨hcp.symm, r, hr⟩

theorem charsHasSub_iff (pat s : List Char) :
    charsHasSub pat s = true ↔ ∃ l r, s = l ++ (pat ++ r) := by
  induction s with
  | nil =>
    simp only [charsHasSub, charsHasPre_iff]
    constructor
    · rintro ⟨r, hr⟩
      exact ⟨[], r, by simpa using hr⟩
    · rintro ⟨l, r, hr⟩
      rcases List.append_eq_nil.mp hr.symm with ⟨hl, hpr⟩
      exact ⟨r, hpr.symm⟩
  | cons c cs ih =>
    simp only [charsHasSub, Bool.or_eq_true, charsHasPre_iff, ih]
    constructor
    · rintro (⟨r, hr⟩ | ⟨l, r, hr⟩)
      · exact ⟨[], r, by simpa using hr⟩
      · exact ⟨c :: l, r, by simp [hr]⟩
    · rintro ⟨l, r, hr⟩
      cases l with
      | nil => exact Or.inl ⟨r, by simpa using hr⟩
      | cons x xs =>
        right
        simp only [List.cons_append, List.cons.injEq] at hr
        exact ⟨xs, r, hr.2⟩

/-- C8: with a search term present, a notice matches the built list query
exactly when it satisfies every supplied non-search filter and the
lower-cased search term occurs contiguously in the lower-cased title or in
the lower-cased content (conjunction across filter dimensions, disjunction
only between title and content). -/
theorem getNotices_search_iff
    (ps : ListParams) (n : Notice) (s : String) (hs : ps.search = some s) :
    evalNoticeQuery (buildNoticeQuery ps) n = true
      ↔ (∀ c, ps.category = some c → n.category = c)
        ∧ (∀ b, ps.branch = some b → n.branch = some b)
        ∧ (∀ y, ps.year = some y → n.year = some y)
        ∧ (∀ t, ps.teacher = some t → n.teacher = some t)
        ∧ ((∃ l r, lowerChars n.title.data = l ++ (lowerChars s.data ++ r))
          ∨ (∃ l r, lowerChars n.content.data = l ++ (lowerChars s.data ++ r))) := by
  unfold evalNoticeQuery buildNoticeQuery
  rw [hs]
  cases hc : ps.category <;> cases hb : ps.branch <;> cases hy : ps.year <;>
    cases ht : ps.teacher <;>
      simp [containsCI, charsHasSub_iff, beq_iff_eq, Bool.and_eq_true,
        Bool.or_eq_true, and_assoc]

/-- List parameters searching for "exam". -/
def examSearch : ListParams := { search := some "Exam" }

theorem getNotices_search_iff_witness :
    examSearch.search = some "Exam"
    ∧ (evalNoticeQuery (buildNoticeQuery examSearch) aNotice = true
        ↔ (∀ c, examSearch.category = some c → aNotice.category = c)
          ∧ (∀ b, examSearch.branch = some b → aNotice.branch = some b)
          ∧ (∀ y, examSearch.year = some y → aNotice.year = some y)
          ∧ (∀ t, examSearch.teacher = some t → aNotice.teacher = some t)
          ∧ ((∃ l r, lowerChars aNotice.title.data
                = l ++ (lowerChars ("Exam" : String).data ++ r))
            ∨ (∃ l r, lowerChars aNotice.content.data
                = l ++ (lowerChars ("Exam" : String).data ++ r))))
    ∧ evalNoticeQuery (buildNoticeQuery examSearch) aNotice = true :=
  ⟨rfl, getNotices_search_iff examSearch aNotice "Exam" rfl, by decide⟩

instance : IsTotal Notice newestFirst :=
  ⟨fun a b => (Nat.le_total a.createdAt b.createdAt).symm⟩

instance : IsTrans Notice newestFirst :=
  ⟨fun _ _ _ hab hbc => Nat.le_trans hbc hab⟩

/-- C7: listing reports the full matching count as `total`, echoes the
page number, returns as `data` the page-`page` slice (skip
`(page-1)*limit`, take `limit`) of the matching notices arranged newest
first, reports `count` as the length of that slice (hence at most
`limit`), and computes `totalPages` as the ceiling of `total/limit`: the
unique value with `total ≤ totalPages*limit < total + limit`. The
arrangement is a permutation of the matching notices that is sorted by
creation timestamp, newest first, and the returned slice inherits that
order. -/
theorem getNotices_pagination_correct (db : DB) (ps : ListParams)
    (hl : 0 < ps.limit) :
    (getNotices db ps false).total
      = (db.notices.filter (evalNoticeQuery (buildNoticeQuery ps))).length
    ∧ (getNotices db ps false).page = ps.page
    ∧ (getNotices db ps false).data
      = ((List.insertionSort newestFirst
            (db.notices.filter (evalNoticeQuery (buildNoticeQuery ps)))).drop
          ((ps.page - 1) * ps.limit)).take ps.limit
    ∧ (getNotices db ps false).count = (getNotices db ps false).data.length
    ∧ (getNotices db ps false).count ≤ ps.limit
    ∧ (List.insertionSort newestFirst
        (db.notices.filter (evalNoticeQuery (buildNoticeQuery ps)))).Perm
        (db.notices.filter (evalNoticeQuery (buildNoticeQuery ps)))
    ∧ List.Sorted newestFirst (getNotices db ps false).data
    ∧ (getNotices db ps false).totalPages
      = jsCeil (getNotices db ps false).total ps.limit
    ∧ (getNotices db ps false).total
      ≤ (getNotices db ps false).totalPages * ps.limit
    ∧ (getNotices db ps false).totalPages * ps.limit
      < (getNotices db ps false).total + ps.limit := by
  have hsorted :=
    List.sorted_insertionSort newestFirst
      (db.notices.filter (evalNoticeQuery (buildNoticeQuery ps)))
  have hsub :
      List.Sublist (getNotices db ps false).data
        (List.insertionSort newestFirst
          (db.notices.filter (evalNoticeQuery (buildNoticeQuery ps)))) :=
    (List.take_sublist _ _).trans (List.drop_sublist _ _)
  have hceil1 :
      (getNotices db ps false).total + ps.limit - 1
        < jsCeil (getNotices db ps false).total ps.limit * ps.limit + ps.limit := by
    have h :=
      (Nat.div_lt_iff_lt_mul hl).mp
        (Nat.lt_succ_self (((getNotices db ps false).total + ps.limit - 1) / ps.limit))
    rwa [Nat.succ_mul] at h
  have hceil2 :
      jsCeil (getNotices db ps false).total ps.limit * ps.limit
        ≤ (getNotices db ps false).total + ps.limit - 1 :=
    Nat.div_mul_le_self _ _
  obtain ⟨M, hM⟩ :
      ∃ M, jsCeil (getNotices db ps false).total ps.limit * ps.limit = M := ⟨_, rfl⟩
  refine ⟨rfl, rfl, rfl, rfl, ?_, List.perm_insertionSort _ _, hsorted.sublist hsub,
    rfl, ?_, ?_⟩
  · show (((List.insertionSort newestFirst
        (db.notices.filter (evalNoticeQuery (buildNoticeQuery ps)))).drop
          ((ps.page - 1) * ps.limit)).take ps.limit).length ≤ ps.limit
    rw [List.length_take]
    exact min_le_left _ _
  · have htp : (getNotices db ps false).totalPages
        = jsCeil (getNotices db ps false).total ps.limit := rfl
    rw [htp, hM]
    rw [hM] at hceil1 hceil2
    omega
  · have htp : (getNotices db ps false).totalPages
        = jsCeil (getNotices db ps false).total ps.limit := rfl
    rw [htp, hM]
    rw [hM] at hceil1 hceil2
    omega

/-- 25 notices, ids and timestamps 0..24, all published by `aTeacher`. -/
def notices25 : List Notice :=
  (List.range 25).map fun i => { aNotice with idN := i, createdAt := i }

/-- A database with 25 notices and nothing else. -/
def db25 : DB := { notices := notices25, notifications := [], users := [] }

/-- Default list parameters, third page. -/
def page3 : ListParams := { page := 3 }

theorem getNotices_pagination_correct_witness :
    0 < page3.limit
    ∧ ((getNotices db25 page3 false).total
        = (db25.notices.filter (evalNoticeQuery (buildNoticeQuery page3))).length
      ∧ (getNotices db25 page3 false).page = page3.page
      ∧ (getNotices db25 page3 false).data
        = ((List.insertionSort newestFirst
              (db25.notices.filter (evalNoticeQuery (buildNoticeQuery page3)))).drop
            ((page3.page - 1) * page3.limit)).take page3.limit
      ∧ (getNotices db25 page3 false).count = (getNotices db25 page3 false).data.length
      ∧ (getNotices db25 page3 false).count ≤ page3.limit
      ∧ (List.insertionSort newestFirst
          (db25.notices.filter (evalNoticeQuery (buildNoticeQuery page3)))).Perm
          (db25.notices.filter (evalNoticeQuery (buildNoticeQuery page3)))
      ∧ List.Sorted newestFirst (getNotices db25 page3 false).data
      ∧ (getNotices db25 page3 false).totalPages
        = jsCeil (getNotices db25 page3 false).total page3.limit
      ∧ (getNotices db25 page3 false).total
        ≤ (getNotices db25 page3 false).totalPages * page3.limit
      ∧ (getNotices db25 page3 false).totalPages * page3.limit
        < (getNotices db25 page3 false).total + page3.limit)
    ∧ (getNotices db25 page3 false).total = 25
    ∧ (getNotices db25 page3 false).totalPages = 3
    ∧ (getNotices db25 page3 false).count = 5 :=
  ⟨by decide, getNotices_pagination_correct db25 page3 (by decide),
    by decide, by decide, by decide⟩

end StreamVibe
